import Mathlib

/-!
Shallow embedding of the ANKUR job portal server (Express + SQLite backend).

The embedding models the three SQLite tables (`users`, `jobs`, `profiles`) as
lists of records together with autoincrement counters, and the server routes as
pure functions from a store (plus request data) to a new store and a response.

External libraries are modelled by their contracts:
  * `jsonwebtoken`: a token is the signed payload together with the secret it
    was signed with; `verify` succeeds exactly when the secrets match.
  * `bcryptjs`: hashing is modelled as an injective tagging function;
    `compare(password, hash)` holds exactly when `hash` is the hash of
    `password`.
  * `better-sqlite3` / SQLite: `.get()` returns the first row produced by the
    query plan — for single-column lookups the first matching row, and for the
    login's email-OR-username query the multi-index OR plan whose email arm is
    probed first (see `findByLoginIdentifier`); `UPDATE`/`DELETE` map/filter
    the row list; binding a JSON `null` stores SQL `NULL`, while binding an
    absent (`undefined`) value raises a `TypeError` before the statement runs
    (see `putProfileMe`).
Request-body string fields that the routes only guard with JS falsiness tests
are modelled as `Option` values (`!x` holds for an absent field and for the
empty string); the profile-update body instead distinguishes absent, null and
string values, because that route behaves differently on each.
-/

namespace Ankur

/-- The payload embedded in a JWT by this server: id, username, email, role. -/
structure Claims where
  id : Nat
  username : String
  email : String
  role : String
deriving DecidableEq, Repr

/-- A signed bearer token: the payload plus the secret used at signing time. -/
structure Token where
  claims : Claims
  signedWith : String
deriving DecidableEq, Repr

/-- `process.env.JWT_SECRET || "ankur-secret-key"` with the variable unset. -/
def JWT_SECRET : String := "ankur-secret-key"

/-- `jwt.sign(payload, secret)`. -/
def jwtSign (c : Claims) (s : String) : Token := ⟨c, s⟩

/-- `jwt.verify(token, secret)`: yields the claims exactly when the token was
signed with this secret; structural/signature validation only, no store
access. -/
def jwtVerify (t : Token) (s : String) : Option Claims :=
  if t.signedWith = s then some t.claims else none

/-- `bcrypt.hash(p, 10)`, modelled as an injective tag so that `compare`
recognises exactly the hashed password. -/
def bcryptHash (p : String) : String := "bcrypt$" ++ p

/-- `bcrypt.compare(p, h)`: true exactly when `h` hashes `p`. -/
def bcryptCompare (p h : String) : Bool := h == bcryptHash p

/-- A row of the `users` table; defaults mirror the schema defaults
(`role TEXT DEFAULT 'user'`, `is_suspended INTEGER DEFAULT 0`,
`is_public INTEGER DEFAULT 1`). -/
structure User where
  id : Nat
  username : String
  email : String
  password : String
  phone : Option String := none
  role : String := "user"
  is_suspended : Bool := false
  is_public : Bool := true
deriving DecidableEq, Repr

/-- A row of the `profiles` table (`name` is `NOT NULL`; all other text
columns are nullable). -/
structure Profile where
  id : Nat
  user_id : Nat
  name : String
  photo_url : Option String := none
  contact_details : Option String := none
  location : Option String := none
  skills : Option String := none
  experience : Option String := none
  education : Option String := none
  resume_url : Option String := none
  portfolio_url : Option String := none
  linkedin_url : Option String := none
  github_url : Option String := none
deriving DecidableEq, Repr

/-- A row of the `jobs` table. -/
structure Job where
  id : Nat
  title : String
  company : String
  category : String
  location : Option String := none
  experience : Option String := none
  salary : Option String := none
  requirements : Option String := none
  link : String
  link_type : String := "Other"
  posted_by : String
  user_id : Option Nat := none
deriving DecidableEq, Repr

/-- The database: all three tables in insertion (rowid) order plus the
autoincrement counters. -/
structure Store where
  users : List User := []
  profiles : List Profile := []
  jobs : List Job := []
  nextUserId : Nat := 1
  nextProfileId : Nat := 1
  nextJobId : Nat := 1
deriving DecidableEq, Repr

/-- The empty database, as on very first startup. -/
def emptyStore : Store := {}

/-- An HTTP response: status code and the `error`/`message` body field. -/
structure HttpResponse where
  status : Nat
  body : String
deriving DecidableEq, Repr

/-- Outcome of the authentication middleware: either it sends an error
response, or it sets `req.user` to the token claims and calls `next()`. -/
inductive AuthResult where
  | err (status : Nat) (msg : String)
  | ok (claims : Claims)
deriving DecidableEq, Repr

/-- `SELECT ... FROM users WHERE id = ?` followed by `.get()`: the first row
with this id. -/
def findUserById (s : Store) (uid : Nat) : Option User :=
  s.users.find? (fun u => u.id == uid)

/-- The `authenticateToken` middleware: requires a bearer token, verifies it
against `JWT_SECRET`, then re-fetches the suspension flag of the embedded user
id from the store; a suspended user is rejected with 403 even though the token
verified.  A missing user row takes the `dbUser && dbUser.is_suspended` test
false, so the request proceeds. -/
def authenticateToken (s : Store) (authToken : Option Token) : AuthResult :=
  match authToken with
  | none => .err 401 "Unauthorized"
  | some token =>
    match jwtVerify token JWT_SECRET with
    | none => .err 403 "Forbidden"
    | some user =>
      match findUserById s user.id with
      | some dbUser =>
        if dbUser.is_suspended then
          .err 403 "Account suspended. Please contact support."
        else .ok user
      | none => .ok user

/-- The `authenticateAdmin` middleware: runs `authenticateToken`, then
re-fetches the current role of `req.user.id` from the store and requires it to
equal `admin`. -/
def authenticateAdmin (s : Store) (authToken : Option Token) : AuthResult :=
  match authenticateToken s authToken with
  | .err c m => .err c m
  | .ok claims =>
    match findUserById s claims.id with
    | some u =>
      if u.role == "admin" then .ok claims
      else .err 403 "Admin access required"
    | none => .err 403 "Admin access required"

/-- Startup seeding: if no user named `Admin` exists, insert the default
`Admin`/`admin@ankur.com` account with role `admin` and its `Administrator`
profile. -/
def seedDefaultAdmin (s : Store) : Store :=
  match s.users.find? (fun u => u.username == "Admin") with
  | some _ => s
  | none =>
    let uid := s.nextUserId
    let adminUser : User :=
      { id := uid, username := "Admin", email := "admin@ankur.com",
        password := bcryptHash "Admin", role := "admin" }
    let adminProfile : Profile :=
      { id := s.nextProfileId, user_id := uid, name := "Administrator" }
    { s with users := s.users ++ [adminUser],
             profiles := s.profiles ++ [adminProfile],
             nextUserId := uid + 1,
             nextProfileId := s.nextProfileId + 1 }

/-- `SELECT id FROM users ORDER BY id ASC LIMIT 1`: the row with the least
id. -/
def minIdUser : List User → Option User
  | [] => none
  | u :: us =>
    match minIdUser us with
    | none => some u
    | some v => if u.id ≤ v.id then some u else some v

/-- Startup fallback promotion: if `COUNT(*)` of admin-role users is zero,
promote the least-id user (when one exists) to `admin`. -/
def promoteFirstUser (s : Store) : Store :=
  if (s.users.filter (fun u => u.role == "admin")).length == 0 then
    match minIdUser s.users with
    | some firstUser =>
      { s with users := s.users.map (fun u =>
          if u.id == firstUser.id then { u with role := "admin" } else u) }
    | none => s
  else s

/-- The startup bootstrap logic of `startServer`: seed the default admin, then
run the first-user promotion fallback. -/
def bootstrap (s : Store) : Store :=
  promoteFirstUser (seedDefaultAdmin s)

/-- JS truthiness of a possibly-absent string body field: `!x` holds for an
absent field and for the empty string. -/
def jsPresent : Option String → Bool
  | none => false
  | some v => !(v == "")

/-- JS `x || null`: an absent or empty string becomes SQL `NULL`. -/
def jsOrNull : Option String → Option String
  | none => none
  | some v => if v = "" then none else some v

/-- Result of `POST /api/auth/register`. -/
inductive RegisterResult where
  | created (token : Token) (id : Nat) (username : String) (email : String)
      (role : String)
  | failure (status : Nat) (msg : String)
deriving DecidableEq, Repr

/-- `POST /api/auth/register`: 400 on a missing field; the `INSERT` raises a
UNIQUE-constraint error (caught and turned into 400
"Username or email already exists") when the username or email collides with
an existing row, leaving the store unchanged; otherwise inserts the user (role
defaulting to `user`) and its initial profile named after the username, and
returns 201 with a signed token. -/
def register (s : Store) (username email password phone : Option String) :
    Store × RegisterResult :=
  if !(jsPresent username) || !(jsPresent email) || !(jsPresent password) then
    (s, .failure 400 "Missing fields")
  else
    let uname := username.getD ""
    let mail := email.getD ""
    let pw := password.getD ""
    if s.users.any (fun u => u.username == uname || u.email == mail) then
      (s, .failure 400 "Username or email already exists")
    else
      let uid := s.nextUserId
      let newUser : User :=
        { id := uid, username := uname, email := mail,
          password := bcryptHash pw, phone := jsOrNull phone }
      let newProfile : Profile :=
        { id := s.nextProfileId, user_id := uid, name := uname }
      let token := jwtSign
        { id := uid, username := uname, email := mail, role := "user" }
        JWT_SECRET
      ({ s with users := s.users ++ [newUser],
                profiles := s.profiles ++ [newProfile],
                nextUserId := uid + 1,
                nextProfileId := s.nextProfileId + 1 },
       .created token uid uname mail "user")

/-- Result of `POST /api/auth/login`. -/
inductive LoginResult where
  | success (token : Token) (id : Nat) (username : String) (email : String)
      (is_public : Bool) (role : String)
  | failure (status : Nat) (msg : String)
deriving DecidableEq, Repr

/-- `SELECT * FROM users WHERE email = ? OR username = ?` followed by
`.get()`.  On this schema SQLite executes the OR with a multi-index OR plan
over the two UNIQUE autoindexes, probing the email arm first, so a row
matching by email is returned in preference to a row matching only by
username. -/
def findByLoginIdentifier (s : Store) (identifier : String) : Option User :=
  match s.users.find? (fun u => u.email == identifier) with
  | some u => some u
  | none => s.users.find? (fun u => u.username == identifier)

/-- `POST /api/auth/login`: look the user up by email-or-username, compare the
password against the stored hash, and on success return a freshly signed token
and the user record; 401 "Invalid credentials" otherwise. -/
def login (s : Store) (identifier password : String) : LoginResult :=
  match findByLoginIdentifier s identifier with
  | none => .failure 401 "Invalid credentials"
  | some user =>
    if bcryptCompare password user.password then
      .success
        (jwtSign
          { id := user.id, username := user.username, email := user.email,
            role := user.role } JWT_SECRET)
        user.id user.username user.email user.is_public user.role
    else .failure 401 "Invalid credentials"

/-- `POST /api/auth/forgot-password`: 404 "User not found" when no user has
this email, otherwise a mocked success message; no table is written either
way. -/
def forgotPassword (s : Store) (email : String) : Store × HttpResponse :=
  match s.users.find? (fun u => u.email == email) with
  | none => (s, ⟨404, "User not found"⟩)
  | some _ =>
    (s, ⟨200, "If an account exists, a reset link has been sent (Mocked)"⟩)

/-- A JSON body field destructured by the profile-update route: entirely
absent (JS `undefined`), JSON `null`, or a string value. -/
inductive BodyField where
  | absent
  | null
  | str (v : String)
deriving DecidableEq, Repr

/-- Whether the field is absent, i.e. its bind value would be `undefined`. -/
def BodyField.isAbsent : BodyField → Bool
  | .absent => true
  | _ => false

/-- The SQL value a present field binds: `NULL` for JSON null. -/
def BodyField.toDb : BodyField → Option String
  | .absent => none
  | .null => none
  | .str v => some v

/-- Request body of `PUT /api/profile/me`: each text field may be absent,
null, or a string.  For `is_public` the route distinguishes an absent field
(`is_public !== undefined`) from a present one, whose truthiness is stored;
`none` here means absent and `some v` a present value with truthiness `v`. -/
structure ProfileUpdateBody where
  name : BodyField := .absent
  photo_url : BodyField := .absent
  contact_details : BodyField := .absent
  location : BodyField := .absent
  skills : BodyField := .absent
  experience : BodyField := .absent
  education : BodyField := .absent
  resume_url : BodyField := .absent
  portfolio_url : BodyField := .absent
  linkedin_url : BodyField := .absent
  github_url : BodyField := .absent
  is_public : Option Bool := none
deriving DecidableEq, Repr

/-- Whether any of the eleven text fields the route binds into the profiles
`UPDATE` is absent: better-sqlite3 cannot bind `undefined` and raises a
`TypeError` at `.run(...)` before the statement executes. -/
def hasUnboundField (b : ProfileUpdateBody) : Bool :=
  b.name.isAbsent || b.photo_url.isAbsent || b.contact_details.isAbsent ||
  b.location.isAbsent || b.skills.isAbsent || b.experience.isAbsent ||
  b.education.isAbsent || b.resume_url.isAbsent ||
  b.portfolio_url.isAbsent || b.linkedin_url.isAbsent ||
  b.github_url.isAbsent

/-- `PUT /api/profile/me`: after `authenticateToken`, one `UPDATE` overwrites
every profile column of the caller's rows with the request's values.  Two
failure paths end in the route's catch with 500 and nothing written: an
absent field cannot be bound at all (better-sqlite3 `TypeError`), and a null
`name` violates the column's `NOT NULL` constraint whenever a row matches.
Otherwise every matched row is fully replaced (a null field clears the
column), and the users table's `is_public` flag is then updated only when the
field is present in the body (`is_public !== undefined`). -/
def putProfileMe (s : Store) (authToken : Option Token)
    (b : ProfileUpdateBody) : Store × HttpResponse :=
  match authenticateToken s authToken with
  | .err c m => (s, ⟨c, m⟩)
  | .ok claims =>
    if hasUnboundField b then
      (s, ⟨500, "Failed to update profile"⟩)
    else if b.name == BodyField.null &&
        s.profiles.any (fun p => p.user_id == claims.id) then
      (s, ⟨500, "Failed to update profile"⟩)
    else
      let s1 := { s with profiles := s.profiles.map (fun p =>
        if p.user_id == claims.id then
          { p with name := (BodyField.toDb b.name).getD p.name,
                   photo_url := b.photo_url.toDb,
                   contact_details := b.contact_details.toDb,
                   location := b.location.toDb,
                   skills := b.skills.toDb,
                   experience := b.experience.toDb,
                   education := b.education.toDb,
                   resume_url := b.resume_url.toDb,
                   portfolio_url := b.portfolio_url.toDb,
                   linkedin_url := b.linkedin_url.toDb,
                   github_url := b.github_url.toDb }
        else p) }
      let s2 :=
        match b.is_public with
        | none => s1
        | some v =>
          { s1 with users := s1.users.map (fun u =>
              if u.id == claims.id then { u with is_public := v } else u) }
      (s2, ⟨200, "Profile updated"⟩)

/-- The three `DELETE` statements of `DELETE /api/admin/users/:id`: remove the
profile rows and job rows owned by this user id and the user row itself (a job
whose `user_id` is `NULL` matches no id). -/
def deleteUserCascade (s : Store) (uid : Nat) : Store :=
  { s with profiles := s.profiles.filter (fun p => !(p.user_id == uid)),
           jobs := s.jobs.filter (fun j => !(j.user_id == some uid)),
           users := s.users.filter (fun u => !(u.id == uid)) }

/-- The `UPDATE` of `PUT /api/admin/users/:id/clear-profile`: null out skills,
experience, education and contact_details of the target user's profile
rows. -/
def clearProfileFields (s : Store) (uid : Nat) : Store :=
  { s with profiles := s.profiles.map (fun p =>
      if p.user_id == uid then
        { p with skills := none, experience := none, education := none,
                 contact_details := none }
      else p) }

/-- The `UPDATE` of `PUT /api/admin/users/:id/clear-socials`: null out
linkedin_url, github_url and portfolio_url of the target user's profile
rows. -/
def clearSocialFields (s : Store) (uid : Nat) : Store :=
  { s with profiles := s.profiles.map (fun p =>
      if p.user_id == uid then
        { p with linkedin_url := none, github_url := none,
                 portfolio_url := none }
      else p) }

/-! ### Concrete sample data used by witnesses and counterexamples -/

/-- A suspended user. -/
def sampleSuspendedUser : User :=
  { id := 1, username := "alice", email := "alice@x.com",
    password := bcryptHash "pw1", is_suspended := true }

/-- A store holding only the suspended user. -/
def sampleSuspendedStore : Store :=
  { users := [sampleSuspendedUser], nextUserId := 2 }

/-- Claims embedded in a token issued for the suspended user. -/
def sampleClaims1 : Claims :=
  { id := 1, username := "alice", email := "alice@x.com", role := "user" }

/-- A correctly signed token for the suspended user. -/
def sampleToken1 : Token := jwtSign sampleClaims1 JWT_SECRET

/-- A non-suspended user whose live role is `user`. -/
def plainUser : User :=
  { id := 1, username := "dave", email := "dave@x.com",
    password := bcryptHash "pw1" }

/-- A store holding only the non-admin user. -/
def plainStore : Store := { users := [plainUser], nextUserId := 2 }

/-- Claims for the non-admin user whose embedded role field says `admin`;
the live store role is what must decide. -/
def plainClaims : Claims :=
  { id := 1, username := "dave", email := "dave@x.com", role := "admin" }

/-- A correctly signed token for the non-admin user. -/
def plainToken : Token := jwtSign plainClaims JWT_SECRET

/-- Claims for a user id that exists in no store row. -/
def ghostClaims : Claims :=
  { id := 7, username := "ghost", email := "ghost@x.com", role := "user" }

/-- A correctly signed token whose embedded id matches no user row. -/
def ghostToken : Token := jwtSign ghostClaims JWT_SECRET

/-- A registered user for the duplicate-registration witness. -/
def takenUser : User :=
  { id := 1, username := "erin", email := "erin@x.com",
    password := bcryptHash "pw1" }

/-- A store already holding `takenUser`. -/
def takenStore : Store :=
  { users := [takenUser],
    profiles := [{ id := 1, user_id := 1, name := "erin" }],
    nextUserId := 2, nextProfileId := 2 }

/-! ### Theorems for the claims -/

/-- C1: a request whose token verifies against the signing secret but whose
embedded user id refers to a currently-suspended user is rejected with 403 by
the authentication gate — and therefore by the admin gate and by the
authenticated endpoints built on it — even though token verification alone
succeeds. -/
theorem suspended_user_always_forbidden (s : Store) (t : Token) (c : Claims)
    (u : User)
    (hv : jwtVerify t JWT_SECRET = some c)
    (hu : findUserById s c.id = some u)
    (hs : u.is_suspended = true) :
    jwtVerify t JWT_SECRET = some c ∧
    authenticateToken s (some t) =
      .err 403 "Account suspended. Please contact support." ∧
    authenticateAdmin s (some t) =
      .err 403 "Account suspended. Please contact support." ∧
    ∀ b : ProfileUpdateBody, putProfileMe s (some t) b =
      (s, ⟨403, "Account suspended. Please contact support."⟩) := by
  have hat : authenticateToken s (some t) =
      .err 403 "Account suspended. Please contact support." := by
    simp [authenticateToken, hv, hu, hs]
  refine ⟨hv, hat, ?_, ?_⟩
  · simp [authenticateAdmin, hat]
  · intro b
    simp [putProfileMe, hat]

/-- Witness for C1 at a concrete suspended user, store and token. -/
theorem suspended_user_always_forbidden_witness :
    jwtVerify sampleToken1 JWT_SECRET = some sampleClaims1 ∧
    authenticateToken sampleSuspendedStore (some sampleToken1) =
      .err 403 "Account suspended. Please contact support." ∧
    authenticateAdmin sampleSuspendedStore (some sampleToken1) =
      .err 403 "Account suspended. Please contact support." ∧
    ∀ b : ProfileUpdateBody,
      putProfileMe sampleSuspendedStore (some sampleToken1) b =
        (sampleSuspendedStore,
         ⟨403, "Account suspended. Please contact support."⟩) :=
  suspended_user_always_forbidden sampleSuspendedStore sampleToken1
    sampleClaims1 sampleSuspendedUser (by decide) (by decide) (by decide)

/-- C2: on a valid, non-suspended token, the admin gate admits the request
exactly when the user's live store role is `admin` (the embedded token role is
never consulted), and a non-admin live role is rejected with 403. -/
theorem admin_gate_requires_live_admin_role (s : Store) (t : Token)
    (c : Claims) (u : User)
    (hv : jwtVerify t JWT_SECRET = some c)
    (hu : findUserById s c.id = some u)
    (hns : u.is_suspended = false) :
    (authenticateAdmin s (some t) = .ok c ↔ u.role = "admin") ∧
    (u.role ≠ "admin" →
      authenticateAdmin s (some t) = .err 403 "Admin access required") := by
  have hat : authenticateToken s (some t) = .ok c := by
    simp [authenticateToken, hv, hu, hns]
  have herr : u.role ≠ "admin" →
      authenticateAdmin s (some t) = .err 403 "Admin access required" := by
    intro hr
    simp [authenticateAdmin, hat, hu, hr]
  refine ⟨⟨?_, ?_⟩, herr⟩
  · intro h
    by_contra hr
    rw [herr hr] at h
    exact absurd h (by simp)
  · intro hr
    simp [authenticateAdmin, hat, hu, hr]

/-- Witness for C2: the token embeds role `admin` but the live role is `user`,
so the admin gate rejects with 403. -/
theorem admin_gate_requires_live_admin_role_witness :
    (authenticateAdmin plainStore (some plainToken) = .ok plainClaims ↔
      plainUser.role = "admin") ∧
    (plainUser.role ≠ "admin" →
      authenticateAdmin plainStore (some plainToken) =
        .err 403 "Admin access required") :=
  admin_gate_requires_live_admin_role plainStore plainToken plainClaims
    plainUser (by decide) (by decide) (by decide)

/-- C3: a token that verifies but whose embedded user id matches no user row
passes the authentication gate (a missing row is treated like a non-suspended
user), so non-admin authenticated handlers run; for instance the profile
update endpoint answers 200. -/
theorem missing_user_row_passes_gate (s : Store) (t : Token) (c : Claims)
    (hv : jwtVerify t JWT_SECRET = some c)
    (hu : findUserById s c.id = none) :
    authenticateToken s (some t) = .ok c ∧
    ∀ b : ProfileUpdateBody, ∀ nm : String, b.name = .str nm →
      hasUnboundField b = false →
      (putProfileMe s (some t) b).2 = ⟨200, "Profile updated"⟩ := by
  have hat : authenticateToken s (some t) = .ok c := by
    simp [authenticateToken, hv, hu]
  refine ⟨hat, ?_⟩
  intro b nm hb hbound
  simp [putProfileMe, hat, hb, hbound]

/-- Witness for C3: a signed token for a user id present in no store row. -/
theorem missing_user_row_passes_gate_witness :
    authenticateToken emptyStore (some ghostToken) = .ok ghostClaims ∧
    ∀ b : ProfileUpdateBody, ∀ nm : String, b.name = .str nm →
      hasUnboundField b = false →
      (putProfileMe emptyStore (some ghostToken) b).2 =
        ⟨200, "Profile updated"⟩ :=
  missing_user_row_passes_gate emptyStore ghostToken ghostClaims
    (by decide) (by decide)

/-- C8: a registration whose username or email collides with an existing user
fails with the uniqueness-conflict error (HTTP 400,
"Username or email already exists") and leaves the store — hence its user and
profile tables — unchanged. -/
theorem duplicate_registration_conflict (s : Store) (un em pw : String)
    (ph : Option String)
    (hcol : ∃ u ∈ s.users, u.username = un ∨ u.email = em)
    (hun : un ≠ "") (hem : em ≠ "") (hpw : pw ≠ "") :
    register s (some un) (some em) (some pw) ph =
      (s, .failure 400 "Username or email already exists") := by
  obtain ⟨u, hu, hc⟩ := hcol
  have hany : s.users.any (fun v => v.username == un || v.email == em) = true := by
    rw [List.any_eq_true]
    refine ⟨u, hu, ?_⟩
    cases hc with
    | inl h => simp [h]
    | inr h => simp [h]
  simp [register, jsPresent, hun, hem, hpw, hany]

/-- Witness for C8: re-registering the taken username with a fresh email is
rejected and the store is unchanged. -/
theorem duplicate_registration_conflict_witness :
    register takenStore (some "erin") (some "erin2@x.com") (some "pw2") none =
      (takenStore, .failure 400 "Username or email already exists") :=
  duplicate_registration_conflict takenStore "erin" "erin2@x.com" "pw2" none
    ⟨takenUser, by decide, Or.inl rfl⟩ (by decide) (by decide) (by decide)

/-- C10: the forgot-password route answers 404 "User not found" exactly when
no user has the submitted email, never mutates the store, and answers the
mocked success message whenever some user has the email — so the response
discloses whether the email is registered. -/
theorem forgot_password_discloses_registration (s : Store) (em : String) :
    ((forgotPassword s em).2 = ⟨404, "User not found"⟩ ↔
      ∀ u ∈ s.users, u.email ≠ em) ∧
    (forgotPassword s em).1 = s ∧
    ((∃ u ∈ s.users, u.email = em) →
      (forgotPassword s em).2 =
        ⟨200, "If an account exists, a reset link has been sent (Mocked)"⟩) := by
  cases hfind : s.users.find? (fun u => u.email == em) with
  | none =>
    have hall := List.find?_eq_none.mp hfind
    refine ⟨⟨fun _ => ?_, fun _ => ?_⟩, ?_, ?_⟩
    · intro u hu
      have := hall u hu
      simpa using this
    · simp [forgotPassword, hfind]
    · simp [forgotPassword, hfind]
    · rintro ⟨u, hu, he⟩
      have := hall u hu
      simp [he] at this
  | some u =>
    have hpu := List.find?_some hfind
    have hmu := List.mem_of_find?_eq_some hfind
    have hemail : u.email = em := by simpa using hpu
    refine ⟨⟨?_, ?_⟩, ?_, ?_⟩
    · intro h
      simp [forgotPassword, hfind] at h
    · intro h
      exact absurd hemail (h u hmu)
    · simp [forgotPassword, hfind]
    · intro _
      simp [forgotPassword, hfind]

/-- Witness for C10 at a concrete store: registered email answered with the
mocked message, store unchanged, and the 404 test matches no-user-has-email. -/
theorem forgot_password_discloses_registration_witness :
    ((forgotPassword takenStore "erin@x.com").2 = ⟨404, "User not found"⟩ ↔
      ∀ u ∈ takenStore.users, u.email ≠ "erin@x.com") ∧
    (forgotPassword takenStore "erin@x.com").1 = takenStore ∧
    ((∃ u ∈ takenStore.users, u.email = "erin@x.com") →
      (forgotPassword takenStore "erin@x.com").2 =
        ⟨200, "If an account exists, a reset link has been sent (Mocked)"⟩) :=
  forgot_password_discloses_registration takenStore "erin@x.com"

/-- C6: the admin delete-user operation removes the user row, its profile
rows and every job row owned by that user id, leaves every other row of every
table in place, and introduces no new rows. -/
theorem delete_user_cascades (s : Store) (uid : Nat) :
    (∀ u ∈ (deleteUserCascade s uid).users, u.id ≠ uid) ∧
    (∀ p ∈ (deleteUserCascade s uid).profiles, p.user_id ≠ uid) ∧
    (∀ j ∈ (deleteUserCascade s uid).jobs, j.user_id ≠ some uid) ∧
    (∀ u ∈ s.users, u.id ≠ uid → u ∈ (deleteUserCascade s uid).users) ∧
    (∀ p ∈ s.profiles, p.user_id ≠ uid →
      p ∈ (deleteUserCascade s uid).profiles) ∧
    (∀ j ∈ s.jobs, j.user_id ≠ some uid →
      j ∈ (deleteUserCascade s uid).jobs) ∧
    (∀ u ∈ (deleteUserCascade s uid).users, u ∈ s.users) ∧
    (∀ p ∈ (deleteUserCascade s uid).profiles, p ∈ s.profiles) ∧
    (∀ j ∈ (deleteUserCascade s uid).jobs, j ∈ s.jobs) := by
  refine ⟨?_, ?_, ?_, ?_, ?_, ?_, ?_, ?_, ?_⟩
  · intro u hu
    simp [deleteUserCascade] at hu
    exact hu.2
  · intro p hp
    simp [deleteUserCascade] at hp
    exact hp.2
  · intro j hj
    simp [deleteUserCascade] at hj
    exact hj.2
  · intro u hu hne
    simp [deleteUserCascade]
    exact ⟨hu, hne⟩
  · intro p hp hne
    simp [deleteUserCascade]
    exact ⟨hp, hne⟩
  · intro j hj hne
    simp [deleteUserCascade]
    exact ⟨hj, hne⟩
  · intro u hu
    simp [deleteUserCascade] at hu
    exact hu.1
  · intro p hp
    simp [deleteUserCascade] at hp
    exact hp.1
  · intro j hj
    simp [deleteUserCascade] at hj
    exact hj.1

/-- A two-user store with profiles and jobs, for the cascade witness. -/
def cascadeStore : Store :=
  { users := [{ id := 1, username := "frank", email := "frank@x.com",
                password := bcryptHash "pw1" },
              { id := 2, username := "gina", email := "gina@x.com",
                password := bcryptHash "pw2" }],
    profiles := [{ id := 1, user_id := 1, name := "frank" },
                 { id := 2, user_id := 2, name := "gina" }],
    jobs := [{ id := 1, title := "T1", company := "C1", category := "IT",
               link := "l1", posted_by := "frank", user_id := some 1 },
             { id := 2, title := "T2", company := "C2", category := "IT",
               link := "l2", posted_by := "gina", user_id := some 2 },
             { id := 3, title := "T3", company := "C3", category := "IT",
               link := "l3", posted_by := "nobody", user_id := none }],
    nextUserId := 3, nextProfileId := 3, nextJobId := 4 }

/-- Witness for C6: deleting user 1 from the two-user store. -/
theorem delete_user_cascades_witness :
    (∀ u ∈ (deleteUserCascade cascadeStore 1).users, u.id ≠ 1) ∧
    (∀ p ∈ (deleteUserCascade cascadeStore 1).profiles, p.user_id ≠ 1) ∧
    (∀ j ∈ (deleteUserCascade cascadeStore 1).jobs, j.user_id ≠ some 1) ∧
    (∀ u ∈ cascadeStore.users, u.id ≠ 1 →
      u ∈ (deleteUserCascade cascadeStore 1).users) ∧
    (∀ p ∈ cascadeStore.profiles, p.user_id ≠ 1 →
      p ∈ (deleteUserCascade cascadeStore 1).profiles) ∧
    (∀ j ∈ cascadeStore.jobs, j.user_id ≠ some 1 →
      j ∈ (deleteUserCascade cascadeStore 1).jobs) ∧
    (∀ u ∈ (deleteUserCascade cascadeStore 1).users, u ∈ cascadeStore.users) ∧
    (∀ p ∈ (deleteUserCascade cascadeStore 1).profiles,
      p ∈ cascadeStore.profiles) ∧
    (∀ j ∈ (deleteUserCascade cascadeStore 1).jobs, j ∈ cascadeStore.jobs) :=
  delete_user_cascades cascadeStore 1

/-- C9: clear-profile empties exactly skills, experience, education and
contact_details of the target user's profile rows, preserving the name and
every link field; clear-socials empties exactly the three link fields and
preserves all other fields; both leave other users' profile rows, the users
table and the jobs table untouched. -/
theorem clear_profile_and_socials_frame (s : Store) (uid : Nat) :
    (clearProfileFields s uid).users = s.users ∧
    (clearProfileFields s uid).jobs = s.jobs ∧
    List.Forall₂ (fun p q =>
      (p.user_id = uid →
        q.skills = none ∧ q.experience = none ∧ q.education = none ∧
        q.contact_details = none ∧
        q.id = p.id ∧ q.user_id = p.user_id ∧ q.name = p.name ∧
        q.photo_url = p.photo_url ∧ q.location = p.location ∧
        q.resume_url = p.resume_url ∧ q.portfolio_url = p.portfolio_url ∧
        q.linkedin_url = p.linkedin_url ∧ q.github_url = p.github_url) ∧
      (p.user_id ≠ uid → q = p))
      s.profiles (clearProfileFields s uid).profiles ∧
    (clearSocialFields s uid).users = s.users ∧
    (clearSocialFields s uid).jobs = s.jobs ∧
    List.Forall₂ (fun p q =>
      (p.user_id = uid →
        q.linkedin_url = none ∧ q.github_url = none ∧
        q.portfolio_url = none ∧
        q.id = p.id ∧ q.user_id = p.user_id ∧ q.name = p.name ∧
        q.photo_url = p.photo_url ∧ q.contact_details = p.contact_details ∧
        q.location = p.location ∧ q.skills = p.skills ∧
        q.experience = p.experience ∧ q.education = p.education ∧
        q.resume_url = p.resume_url) ∧
      (p.user_id ≠ uid → q = p))
      s.profiles (clearSocialFields s uid).profiles := by
  refine ⟨rfl, rfl, ?_, rfl, rfl, ?_⟩
  · simp only [clearProfileFields]
    rw [List.forall₂_map_right_iff, List.forall₂_same]
    intro p _
    by_cases hp : p.user_id = uid
    · simp [hp]
    · simp [hp]
  · simp only [clearSocialFields]
    rw [List.forall₂_map_right_iff, List.forall₂_same]
    intro p _
    by_cases hp : p.user_id = uid
    · simp [hp]
    · simp [hp]

/-- A profile with every free-text and link field populated, for the C9
witness. -/
def fullProfile : Profile :=
  { id := 1, user_id := 1, name := "bob", photo_url := some "ph",
    contact_details := some "cd", location := some "loc",
    skills := some "sk", experience := some "ex", education := some "ed",
    resume_url := some "re", portfolio_url := some "po",
    linkedin_url := some "li", github_url := some "gh" }

/-- A store holding one user with the fully populated profile. -/
def fullProfileStore : Store :=
  { users := [{ id := 1, username := "bob", email := "bob@x.com",
                password := bcryptHash "pw1" }],
    profiles := [fullProfile], nextUserId := 2, nextProfileId := 2 }

/-- Witness for C9: clearing user 1 in the fully populated store. -/
theorem clear_profile_and_socials_frame_witness :
    (clearProfileFields fullProfileStore 1).users = fullProfileStore.users ∧
    (clearProfileFields fullProfileStore 1).jobs = fullProfileStore.jobs ∧
    List.Forall₂ (fun p q =>
      (p.user_id = 1 →
        q.skills = none ∧ q.experience = none ∧ q.education = none ∧
        q.contact_details = none ∧
        q.id = p.id ∧ q.user_id = p.user_id ∧ q.name = p.name ∧
        q.photo_url = p.photo_url ∧ q.location = p.location ∧
        q.resume_url = p.resume_url ∧ q.portfolio_url = p.portfolio_url ∧
        q.linkedin_url = p.linkedin_url ∧ q.github_url = p.github_url) ∧
      (p.user_id ≠ 1 → q = p))
      fullProfileStore.profiles (clearProfileFields fullProfileStore 1).profiles ∧
    (clearSocialFields fullProfileStore 1).users = fullProfileStore.users ∧
    (clearSocialFields fullProfileStore 1).jobs = fullProfileStore.jobs ∧
    List.Forall₂ (fun p q =>
      (p.user_id = 1 →
        q.linkedin_url = none ∧ q.github_url = none ∧
        q.portfolio_url = none ∧
        q.id = p.id ∧ q.user_id = p.user_id ∧ q.name = p.name ∧
        q.photo_url = p.photo_url ∧ q.contact_details = p.contact_details ∧
        q.location = p.location ∧ q.skills = p.skills ∧
        q.experience = p.experience ∧ q.education = p.education ∧
        q.resume_url = p.resume_url) ∧
      (p.user_id ≠ 1 → q = p))
      fullProfileStore.profiles (clearSocialFields fullProfileStore 1).profiles :=
  clear_profile_and_socials_frame fullProfileStore 1

/-- A user whose username happens to be another user's email address. -/
def collideUser1 : User :=
  { id := 1, username := "bob@x.com", email := "bob@home.com",
    password := bcryptHash "pw1" }

/-- A user whose email equals `collideUser1`'s username. -/
def collideUser2 : User :=
  { id := 2, username := "bob", email := "bob@x.com",
    password := bcryptHash "pw2" }

/-- A store with the colliding pair; usernames are pairwise distinct and
emails are pairwise distinct, so both UNIQUE constraints hold. -/
def collideStore : Store :=
  { users := [collideUser1, collideUser2], nextUserId := 3 }

/-- C7 counterexample: user 1 is registered with username `bob@x.com` and
password `pw1`, the store satisfies both UNIQUE constraints, yet logging in
with that username and the correct password fails with 401: the query's
multi-index OR plan returns the email-arm match — user 2, whose email equals
user 1's username — and the password is compared against that row only. -/
theorem login_username_shadowed_by_email_cex :
    collideStore.users.Pairwise
      (fun a b => a.username ≠ b.username ∧ a.email ≠ b.email) ∧
    (∃ u ∈ collideStore.users,
      u.username = "bob@x.com" ∧ u.password = bcryptHash "pw1") ∧
    login collideStore "bob@x.com" "pw1" =
      .failure 401 "Invalid credentials" := by
  refine ⟨?_, ⟨collideUser1, by decide, rfl, rfl⟩, by decide⟩
  decide

/-- C7 amended: when the identifier matches a unique user (no other user's
username or email equals it), login succeeds exactly with that user's
password and fails with 401 on any password failing the hash comparison; an
identifier matching no user always fails with 401.  (When one user's username
equals another's email, the email-matching row is the one fetched, so the
username-matching user's correct password is rejected.) -/
theorem login_by_username_or_email (s : Store) (identifier : String)
    (u : User)
    (hmem : u ∈ s.users)
    (hmatch : u.email = identifier ∨ u.username = identifier)
    (huniq : ∀ v ∈ s.users,
      (v.email = identifier ∨ v.username = identifier) → v = u) :
    (∀ pw, u.password = bcryptHash pw →
      login s identifier pw =
        .success
          (jwtSign { id := u.id, username := u.username, email := u.email,
                     role := u.role } JWT_SECRET)
          u.id u.username u.email u.is_public u.role) ∧
    (∀ pw, bcryptCompare pw u.password = false →
      login s identifier pw = .failure 401 "Invalid credentials") ∧
    (∀ other pw, (∀ v ∈ s.users, v.email ≠ other ∧ v.username ≠ other) →
      login s other pw = .failure 401 "Invalid credentials") := by
  have hfind : findByLoginIdentifier s identifier = some u := by
    cases he : s.users.find? (fun v => v.email == identifier) with
    | some v =>
      have hpv := List.find?_some he
      have hvm := List.mem_of_find?_eq_some he
      have hveq : v = u := huniq v hvm (Or.inl (by simpa using hpv))
      simp [findByLoginIdentifier, he, hveq]
    | none =>
      have hnone := List.find?_eq_none.mp he
      have hun : u.username = identifier := by
        cases hmatch with
        | inl h =>
          have := hnone u hmem
          simp [h] at this
        | inr h => exact h
      have hsome : (s.users.find?
          (fun v => v.username == identifier)).isSome = true := by
        rw [List.find?_isSome]
        exact ⟨u, hmem, by simp [hun]⟩
      obtain ⟨v, hv⟩ := Option.isSome_iff_exists.mp hsome
      have hveq : v = u := huniq v (List.mem_of_find?_eq_some hv)
        (Or.inr (by simpa using List.find?_some hv))
      simp [findByLoginIdentifier, he, hv, hveq]
  refine ⟨?_, ?_, ?_⟩
  · intro pw hpw
    have hcmp : bcryptCompare pw u.password = true := by
      simp [bcryptCompare, hpw]
    simp [login, hfind, hcmp]
  · intro pw hcmp
    simp [login, hfind, hcmp]
  · intro other pw hnone
    have hfe : s.users.find? (fun w => w.email == other) = none := by
      rw [List.find?_eq_none]
      intro x hx
      simpa using (hnone x hx).1
    have hfu : s.users.find? (fun w => w.username == other) = none := by
      rw [List.find?_eq_none]
      intro x hx
      simpa using (hnone x hx).2
    simp [login, findByLoginIdentifier, hfe, hfu]

/-- Witness for C7 amended at a one-user store: login by email with the
correct password succeeds, a wrong password and an unknown identifier fail
with 401. -/
theorem login_by_username_or_email_witness :
    (∀ pw, takenUser.password = bcryptHash pw →
      login takenStore "erin@x.com" pw =
        .success
          (jwtSign { id := takenUser.id, username := takenUser.username,
                     email := takenUser.email, role := takenUser.role }
            JWT_SECRET)
          takenUser.id takenUser.username takenUser.email
          takenUser.is_public takenUser.role) ∧
    (∀ pw, bcryptCompare pw takenUser.password = false →
      login takenStore "erin@x.com" pw = .failure 401 "Invalid credentials") ∧
    (∀ other pw,
      (∀ v ∈ takenStore.users, v.email ≠ other ∧ v.username ≠ other) →
      login takenStore other pw = .failure 401 "Invalid credentials") :=
  login_by_username_or_email takenStore "erin@x.com" takenUser (by decide)
    (Or.inl rfl) (by decide)

/-- A user with the public-visibility flag set, for the C5 counterexample. -/
def visUser : User :=
  { id := 1, username := "carol", email := "carol@x.com",
    password := bcryptHash "pw1" }

/-- A store with that user and her profile. -/
def visStore : Store :=
  { users := [visUser],
    profiles := [{ id := 1, user_id := 1, name := "carol",
                   skills := some "welding" }],
    nextUserId := 2, nextProfileId := 2 }

/-- Claims for the visible user. -/
def visClaims : Claims :=
  { id := 1, username := "carol", email := "carol@x.com", role := "user" }

/-- A correctly signed token for the visible user. -/
def visToken : Token := jwtSign visClaims JWT_SECRET

/-- A profile-update body providing every text field, omitting `is_public`. -/
def fullBodyNoVis : ProfileUpdateBody :=
  { name := .str "carol", photo_url := .str "p", contact_details := .str "c",
    location := .str "l", skills := .str "s", experience := .str "e",
    education := .str "d", resume_url := .str "r", portfolio_url := .str "f",
    linkedin_url := .str "li", github_url := .str "gh", is_public := none }

/-- The same body with `is_public` present (and false). -/
def fullBodyVis : ProfileUpdateBody :=
  { fullBodyNoVis with is_public := some false }

/-- The full body with the `skills` field omitted entirely. -/
def bodyMissingSkills : ProfileUpdateBody :=
  { fullBodyNoVis with skills := .absent }

/-- C5 counterexample: a full update that merely omits `is_public` succeeds
with 200 yet keeps the stored flag at its previous value `true` instead of
clearing it; and an update that omits the `skills` text field does not clear
the stored skills either — the absent value is unbindable, so the whole
update fails with 500 and the store is unchanged. -/
theorem put_profile_omitted_is_public_kept_cex :
    fullBodyNoVis.is_public = none ∧
    visStore.users.map User.is_public = [true] ∧
    (putProfileMe visStore (some visToken) fullBodyNoVis).2 =
      ⟨200, "Profile updated"⟩ ∧
    (putProfileMe visStore (some visToken) fullBodyNoVis).1.users.map
      User.is_public = [true] ∧
    bodyMissingSkills.skills = .absent ∧
    putProfileMe visStore (some visToken) bodyMissingSkills =
      (visStore, ⟨500, "Failed to update profile"⟩) := by
  refine ⟨rfl, rfl, by decide, by decide, rfl, by decide⟩

/-- C5 amended: for an authenticated request whose body provides every text
field and a string name, the update overwrites every mutable profiles-table
field of the caller's rows with the request's value (a JSON-null field is
stored as null), leaves other rows and the row count intact, and updates the
users-table `is_public` flag to the truthiness of the supplied value only
when the field is present, leaving the users table unchanged when it is
omitted; a body omitting any text field makes the whole update fail with 500
and writes nothing, so omission never clears a stored value. -/
theorem put_profile_full_replace (s : Store) (t : Token) (c : Claims)
    (b : ProfileUpdateBody) (nm : String)
    (hat : authenticateToken s (some t) = .ok c)
    (hnm : b.name = .str nm)
    (hbound : hasUnboundField b = false) :
    (putProfileMe s (some t) b).2 = ⟨200, "Profile updated"⟩ ∧
    List.Forall₂ (fun p q =>
      (p.user_id = c.id →
        q.id = p.id ∧ q.user_id = p.user_id ∧ q.name = nm ∧
        q.photo_url = b.photo_url.toDb ∧
        q.contact_details = b.contact_details.toDb ∧
        q.location = b.location.toDb ∧ q.skills = b.skills.toDb ∧
        q.experience = b.experience.toDb ∧
        q.education = b.education.toDb ∧
        q.resume_url = b.resume_url.toDb ∧
        q.portfolio_url = b.portfolio_url.toDb ∧
        q.linkedin_url = b.linkedin_url.toDb ∧
        q.github_url = b.github_url.toDb) ∧
      (p.user_id ≠ c.id → q = p))
      s.profiles (putProfileMe s (some t) b).1.profiles ∧
    (b.is_public = none → (putProfileMe s (some t) b).1.users = s.users) ∧
    (∀ v, b.is_public = some v →
      List.Forall₂ (fun u w =>
        (u.id = c.id → w = { u with is_public := v }) ∧
        (u.id ≠ c.id → w = u))
        s.users (putProfileMe s (some t) b).1.users) ∧
    (∀ b2 : ProfileUpdateBody, hasUnboundField b2 = true →
      putProfileMe s (some t) b2 =
        (s, ⟨500, "Failed to update profile"⟩)) := by
  have hcond : (b.name == BodyField.null &&
      s.profiles.any (fun p => p.user_id == c.id)) = false := by
    simp [hnm]
  have habsent : ∀ b2 : ProfileUpdateBody, hasUnboundField b2 = true →
      putProfileMe s (some t) b2 =
        (s, ⟨500, "Failed to update profile"⟩) := by
    intro b2 hb2
    simp [putProfileMe, hat, hb2]
  cases hb : b.is_public with
  | none =>
    refine ⟨?_, ?_, ?_, ?_, habsent⟩
    · simp [putProfileMe, hat, hbound, hcond, hb]
    · simp [putProfileMe, hat, hbound, hcond, hb]
      intro p _
      by_cases hp : p.user_id = c.id
      · simp [hp, hnm, BodyField.toDb]
      · simp [hp]
    · intro _
      simp [putProfileMe, hat, hbound, hcond, hb]
    · intro v hv
      simp at hv
  | some w =>
    refine ⟨?_, ?_, ?_, ?_, habsent⟩
    · simp [putProfileMe, hat, hbound, hcond, hb]
    · simp [putProfileMe, hat, hbound, hcond, hb]
      intro p _
      by_cases hp : p.user_id = c.id
      · simp [hp, hnm, BodyField.toDb]
      · simp [hp]
    · intro hn
      simp at hn
    · intro v hv
      have hw : w = v := by simpa using hv
      subst hw
      simp [putProfileMe, hat, hbound, hcond, hb]
      intro u _
      by_cases hu : u.id = c.id
      · simp [hu]
      · simp [hu]

/-- Witness for C5 amended: the full body with `is_public` present and false
at the one-user store. -/
theorem put_profile_full_replace_witness :
    (putProfileMe visStore (some visToken) fullBodyVis).2 =
      ⟨200, "Profile updated"⟩ ∧
    List.Forall₂ (fun p q =>
      (p.user_id = visClaims.id →
        q.id = p.id ∧ q.user_id = p.user_id ∧ q.name = "carol" ∧
        q.photo_url = fullBodyVis.photo_url.toDb ∧
        q.contact_details = fullBodyVis.contact_details.toDb ∧
        q.location = fullBodyVis.location.toDb ∧
        q.skills = fullBodyVis.skills.toDb ∧
        q.experience = fullBodyVis.experience.toDb ∧
        q.education = fullBodyVis.education.toDb ∧
        q.resume_url = fullBodyVis.resume_url.toDb ∧
        q.portfolio_url = fullBodyVis.portfolio_url.toDb ∧
        q.linkedin_url = fullBodyVis.linkedin_url.toDb ∧
        q.github_url = fullBodyVis.github_url.toDb) ∧
      (p.user_id ≠ visClaims.id → q = p))
      visStore.profiles (putProfileMe visStore (some visToken) fullBodyVis).1.profiles ∧
    (fullBodyVis.is_public = none →
      (putProfileMe visStore (some visToken) fullBodyVis).1.users =
        visStore.users) ∧
    (∀ v, fullBodyVis.is_public = some v →
      List.Forall₂ (fun u w =>
        (u.id = visClaims.id → w = { u with is_public := v }) ∧
        (u.id ≠ visClaims.id → w = u))
        visStore.users (putProfileMe visStore (some visToken) fullBodyVis).1.users) ∧
    (∀ b2 : ProfileUpdateBody, hasUnboundField b2 = true →
      putProfileMe visStore (some visToken) b2 =
        (visStore, ⟨500, "Failed to update profile"⟩)) :=
  put_profile_full_replace visStore visToken visClaims fullBodyVis "carol"
    (by decide) rfl (by decide)

/-- The least-id query is total on a nonempty users table. -/
theorem minIdUser_isSome (l : List User) (h : l ≠ []) :
    ∃ u, minIdUser l = some u := by
  cases l with
  | nil => exact absurd rfl h
  | cons a as =>
    simp only [minIdUser]
    cases minIdUser as with
    | none => exact ⟨a, rfl⟩
    | some v =>
      by_cases hc : a.id ≤ v.id
      · exact ⟨a, by simp [hc]⟩
      · exact ⟨v, by simp [hc]⟩

/-- The least-id query returns a row of the table. -/
theorem minIdUser_mem (l : List User) (u : User) (h : minIdUser l = some u) :
    u ∈ l := by
  induction l with
  | nil => simp [minIdUser] at h
  | cons a as ih =>
    simp only [minIdUser] at h
    cases hm : minIdUser as with
    | none =>
      rw [hm] at h
      simp at h
      simp [h]
    | some v =>
      rw [hm] at h
      by_cases hc : a.id ≤ v.id
      · simp [hc] at h
        simp [h]
      · simp [hc] at h
        have := ih (hm.trans (congrArg some h))
        simp [this]

/-- After the first-user promotion fallback, a nonempty users table contains
an admin-role user. -/
theorem promoteFirstUser_admin (s : Store) (h : s.users ≠ []) :
    ∃ u ∈ (promoteFirstUser s).users, u.role = "admin" := by
  by_cases hc : (s.users.filter (fun u => u.role == "admin")).length = 0
  · obtain ⟨fu, hfu⟩ := minIdUser_isSome s.users h
    have hmem := minIdUser_mem s.users fu hfu
    refine ⟨{ fu with role := "admin" }, ?_, rfl⟩
    simp only [promoteFirstUser, hc]
    simp only [beq_self_eq_true, if_true, hfu]
    have himg := List.mem_map_of_mem
      (fun u => if u.id == fu.id then { u with role := "admin" } else u) hmem
    simpa using himg
  · have hne : s.users.filter (fun u => u.role == "admin") ≠ [] := by
      intro hnil
      exact hc (by rw [hnil]; rfl)
    obtain ⟨a, ha⟩ := List.exists_mem_of_ne_nil _ hne
    have hmf := List.mem_filter.mp ha
    refine ⟨a, ?_, by simpa using hmf.2⟩
    simp only [promoteFirstUser]
    have hcb : ((s.users.filter (fun u => u.role == "admin")).length == 0) = false := by
      simpa using hc
    rw [hcb]
    simpa using hmf.1

/-- Seeding never leaves the users table empty. -/
theorem seedDefaultAdmin_users_ne_nil (s : Store) :
    (seedDefaultAdmin s).users ≠ [] := by
  cases hfind : s.users.find? (fun u => u.username == "Admin") with
  | some u =>
    have hm := List.mem_of_find?_eq_some hfind
    simp only [seedDefaultAdmin, hfind]
    exact List.ne_nil_of_mem hm
  | none =>
    simp [seedDefaultAdmin, hfind]

/-- After the whole bootstrap, some user holds the admin role. -/
theorem bootstrap_hasAdmin (s : Store) :
    ∃ u ∈ (bootstrap s).users, u.role = "admin" :=
  promoteFirstUser_admin (seedDefaultAdmin s) (seedDefaultAdmin_users_ne_nil s)

/-- C4 counterexample: bootstrapping the empty store and then registering the
first user `alice` leaves alice with role `user`, not `admin` — the admin
role is held by the freshly seeded default `Admin` account instead. -/
theorem first_registration_after_bootstrap_cex :
    ((register (bootstrap emptyStore) (some "alice") (some "alice@x.com")
        (some "pw1") none).1.users.find?
      (fun u => u.username == "alice")).map User.role = some "user" ∧
    ((register (bootstrap emptyStore) (some "alice") (some "alice@x.com")
        (some "pw1") none).1.users.find?
      (fun u => u.username == "alice")).map User.role ≠ some "admin" := by
  refine ⟨by decide, by decide⟩

/-- C4 amended: every bootstrap leaves some user holding the admin role (on
an empty store, the freshly seeded default `Admin` account); the first user
registered after bootstrapping an empty store holds role `user`. -/
theorem bootstrap_admin_invariant :
    (∀ s : Store, ∃ u ∈ (bootstrap s).users, u.role = "admin") ∧
    ((bootstrap emptyStore).users.find?
        (fun u => u.username == "Admin")).map User.role = some "admin" ∧
    ((register (bootstrap emptyStore) (some "alice") (some "alice@x.com")
        (some "pw1") none).1.users.find?
      (fun u => u.username == "alice")).map User.role = some "user" :=
  ⟨bootstrap_hasAdmin, by decide, by decide⟩

/-- Witness for C4 amended: some admin-role user exists after bootstrapping
the empty store. -/
theorem bootstrap_admin_invariant_witness :
    ∃ u ∈ (bootstrap emptyStore).users, u.role = "admin" :=
  bootstrap_admin_invariant.1 emptyStore

end Ankur
